import Mathlib

/- Shallow embedding of xdg_binary_cache/__init__.py.

The external effects of the library (environment lookup, filesystem,
network fetch, chmod, child process) are modelled explicitly: the
environment is a pair of optional variables, the filesystem is a list of
existing file paths plus a permission table, and the network and the
child process are parameters of a World record. Python exceptions become
an explicit error type; the specification maps KeyError and ValueError
to ConfigurationError and subprocess.CalledProcessError to
ProcessExecutionError. -/

deriving instance DecidableEq for Except

/-- Test of the first character of a string against the path separator,
the `b.startswith(sep)` test of posixpath.join. -/
def headIsSlash (s : String) : Bool := s.data.head? == some '/'

/-- Test of the last character of a string against the path separator,
the `path.endswith(sep)` test of posixpath.join. -/
def lastIsSlash (s : String) : Bool := s.data.getLast? == some '/'

/-- Posix `os.path.join` restricted to two components: an absolute second
component resets the path; otherwise the separator is inserted unless the
first component is empty or already ends with the separator. -/
def pjoin (a b : String) : String :=
  if headIsSlash b then b
  else if a == "" || lastIsSlash a then a ++ b
  else a ++ "/" ++ b

/-- The two environment variables the library reads: XDG_CACHE_HOME and
HOME. `none` means the variable is absent from the environment. -/
structure Env where
  xdg_cache_home : Option String
  home : Option String
deriving DecidableEq, Repr

/-- Python exceptions raised by the library.
keyError: `os.environ[key]` with the key absent (spec: ConfigurationError).
valueError: the explicit `raise ValueError` in run_binary
(spec: ConfigurationError).
urlError: a network failure inside `urllib.request.urlretrieve`
(spec: DownloadError).
calledProcessError: `subprocess.run(check=True)` on a non-zero exit
(spec: ProcessExecutionError), carrying the return code and the captured
stdout and stderr. -/
inductive PyError where
  | keyError (key : String)
  | valueError (msg : String)
  | urlError (url : String)
  | calledProcessError (returncode : Int) (stdout stderr : Option String)
deriving DecidableEq, Repr

/-- The instance state of BinaryDownloader: the two constructor fields,
the two overrides (None until handle_arguments sets them), and the two
configuration flags. -/
structure BinaryDownloader where
  binary_name : String
  version : String
  override_path : Option String
  override_url : Option String
  add_arguments_called : Bool
  handle_arguments_called : Bool
deriving DecidableEq, Repr

/-- BinaryDownloader.__init__(binary_name, version): overrides start as
None and both flags start as False. -/
def BinaryDownloader.init (binary_name version : String) : BinaryDownloader :=
  ⟨binary_name, version, none, none, false, false⟩

/-- Python truthiness of an optional string: None and the empty string
are falsy, every other string is truthy. -/
def truthy : Option String → Bool
  | none => false
  | some s => s != ""

/-- REMOTE_URL with `.format(binary_name=..., version=...)` applied: the
template is
https://storage.googleapis.com/pre-commit-assets/ followed by
binary_name, a slash, version, /bin/ and binary_name again. -/
def REMOTE_URL (binary_name version : String) : String :=
  "https://storage.googleapis.com/pre-commit-assets/"
    ++ binary_name ++ "/" ++ version ++ "/bin/" ++ binary_name

/-- BinaryDownloader.cached_binary_root. The source line is
`os.environ.get("XDG_CACHE_HOME", os.path.join(os.environ["HOME"], ".cache"))`:
Python evaluates the default argument eagerly, so `os.environ["HOME"]`
is looked up (and KeyError raised when HOME is absent) before the .get
call, whether or not XDG_CACHE_HOME is set. -/
def cached_binary_root (d : BinaryDownloader) (env : Env) :
    Except PyError String :=
  match env.home with
  | none => .error (.keyError "HOME")
  | some h =>
    let cached_path := env.xdg_cache_home.getD (pjoin h ".cache")
    .ok (pjoin cached_path d.binary_name)

/-- BinaryDownloader.cached_binary_path:
`os.path.join(self.cached_binary_root(), self.version, self.binary_name)`. -/
def cached_binary_path (d : BinaryDownloader) (env : Env) :
    Except PyError String :=
  (cached_binary_root d env).map
    (fun root => pjoin (pjoin root d.version) d.binary_name)

/-- BinaryDownloader.remote_binary_url:
`self.override_url or REMOTE_URL.format(...)`, with Python `or`
falling through on None and on the empty string. -/
def remote_binary_url (d : BinaryDownloader) : String :=
  if truthy d.override_url then d.override_url.getD ""
  else REMOTE_URL d.binary_name d.version

/-- The modelled filesystem: the set of existing file paths and a
permission table (most recent chmod first). -/
structure FS where
  files : List String
  perms : List (String × Nat)
deriving DecidableEq, Repr

/-- os.path.exists on the modelled filesystem. -/
def osPathExists (fs : FS) (p : String) : Bool := fs.files.contains p

/-- Permission bits currently recorded for a path, if any chmod touched it. -/
def FS.perm (fs : FS) (p : String) : Option Nat :=
  (fs.perms.find? (fun q => q.1 == p)).map Prod.snd

/-- Everything outside the program: the environment, the filesystem,
whether a network fetch would succeed, whether os.chmod would succeed,
and the behaviour of the child process (exit code and output text after
decoding with the given encoding). -/
structure World where
  env : Env
  fs : FS
  fetchOk : Bool
  chmodOk : Bool
  childExit : Int
  childStdout : String
  childStderr : String
deriving DecidableEq, Repr

def S_IRUSR : Nat := 0o400
def S_IWUSR : Nat := 0o200
def S_IXUSR : Nat := 0o100
def S_IRGRP : Nat := 0o40
def S_IXGRP : Nat := 0o10
def S_IROTH : Nat := 0o4
def S_IXOTH : Nat := 0o1

/-- The permission argument of the os.chmod call in fix_file_permissions:
the bitwise or of the seven stat constants. -/
def permBits : Nat :=
  Nat.lor (Nat.lor (Nat.lor (Nat.lor (Nat.lor (Nat.lor
    S_IRUSR S_IWUSR) S_IXUSR) S_IRGRP) S_IXGRP) S_IROTH) S_IXOTH

/-- Result of fix_file_permissions: the filesystem afterwards and whether
the warning branch ran. -/
structure ChmodResult where
  fs : FS
  warned : Bool
deriving DecidableEq, Repr

/-- fix_file_permissions(target_path): os.chmod with permBits; an OSError
is caught and only logged as a warning. chmodOk says whether the chmod
call succeeds in this world. -/
def fix_file_permissions (chmodOk : Bool) (target_path : String) (fs : FS) :
    ChmodResult :=
  if chmodOk then ⟨⟨fs.files, (target_path, permBits) :: fs.perms⟩, false⟩
  else ⟨fs, true⟩

/-- Observable outcome of download_binary: the returned path or the
exception, the filesystem afterwards, the list of URLs fetched over the
network in order, whether remote_binary_url was evaluated at all, and
whether the chmod warning fired. -/
structure DlResult where
  ret : Except PyError String
  fs : FS
  fetched : List String
  urlResolved : Bool
  chmodWarned : Bool
deriving DecidableEq, Repr

/-- BinaryDownloader.download_binary: compute the target path; if a file
already exists there, return it at once; otherwise resolve the remote
URL, fetch it to a temporary file (urllib.request.urlretrieve), create
the parent directories, move the temporary file to the target path and
fix its permissions. -/
def download_binary (d : BinaryDownloader) (w : World) : DlResult :=
  match cached_binary_path d w.env with
  | .error e => ⟨.error e, w.fs, [], false, false⟩
  | .ok target_path =>
    if osPathExists w.fs target_path then
      ⟨.ok target_path, w.fs, [], false, false⟩
    else
      let remote_url := remote_binary_url d
      if w.fetchOk then
        let fs1 : FS := ⟨target_path :: w.fs.files, w.fs.perms⟩
        let cr := fix_file_permissions w.chmodOk target_path fs1
        ⟨.ok target_path, cr.fs, [remote_url], true, cr.warned⟩
      else
        ⟨.error (.urlError remote_url), w.fs, [remote_url], true, false⟩

/-- The subprocess.run return value: the command, the exit code, and the
captured stdout and stderr (None unless capture was requested). -/
structure CompletedProcess where
  args : List String
  returncode : Int
  stdout : Option String
  stderr : Option String
deriving DecidableEq, Repr

/-- Observable outcome of run_binary: the CompletedProcess or the
exception, the filesystem afterwards, the URLs fetched, the command
constructed (None when path resolution already failed), whether a child
process was launched, and whether the not-configured warning fired. -/
structure RunResult where
  ret : Except PyError CompletedProcess
  fs : FS
  fetched : List String
  cmd : Option (List String)
  processLaunched : Bool
  warnedNotConfigured : Bool
deriving DecidableEq, Repr

/-- The tail of run_binary once binary_path is known: build cmd, reject
capture_output combined with a stdout or stderr kwarg, translate
capture_output to PIPE kwargs, then subprocess.run with check. The
kwargs_stdout and kwargs_stderr flags say whether the caller put stdout
or stderr into kwargs. -/
def runProcess (w : World) (cmd : List String)
    (capture_output check kwargs_stdout kwargs_stderr : Bool)
    (fs : FS) (fetched : List String) (warned : Bool) : RunResult :=
  if capture_output && (kwargs_stderr || kwargs_stdout) then
    ⟨.error (.valueError "Do not specify both capture_output and stdout/stderr"),
      fs, fetched, some cmd, false, warned⟩
  else
    let rstdout := if capture_output then some w.childStdout else none
    let rstderr := if capture_output then some w.childStderr else none
    if check && w.childExit != 0 then
      ⟨.error (.calledProcessError w.childExit rstdout rstderr),
        fs, fetched, some cmd, true, warned⟩
    else
      ⟨.ok ⟨cmd, w.childExit, rstdout, rstderr⟩,
        fs, fetched, some cmd, true, warned⟩

/-- BinaryDownloader.run_binary: warn when the two configuration flags
were not both set, use override_path when truthy and download_binary
otherwise, build cmd as the binary path followed by args, then hand over
to the subprocess.run stage. -/
def run_binary (d : BinaryDownloader) (w : World) (args : List String)
    (capture_output check kwargs_stdout kwargs_stderr : Bool) : RunResult :=
  let warned := !(d.handle_arguments_called && d.add_arguments_called)
  if truthy d.override_path then
    let binary_path := d.override_path.getD ""
    runProcess w (binary_path :: args)
      capture_output check kwargs_stdout kwargs_stderr w.fs [] warned
  else
    let dl := download_binary d w
    match dl.ret with
    | .error e => ⟨.error e, dl.fs, dl.fetched, none, false, warned⟩
    | .ok binary_path =>
      runProcess w (binary_path :: args)
        capture_output check kwargs_stdout kwargs_stderr dl.fs dl.fetched warned

/-- The binary path run_binary hands to the child: override_path when
truthy, otherwise whatever download_binary returns. -/
def binary_path_resolution (d : BinaryDownloader) (w : World) :
    Except PyError String :=
  if truthy d.override_path then .ok (d.override_path.getD "")
  else (download_binary d w).ret

/-- Concrete downloader used by witnesses: foo at version 1.0, fully
configured, no overrides. -/
def dFoo : BinaryDownloader := ⟨"foo", "1.0", none, none, true, true⟩

/-- Concrete downloader with a path override. -/
def dOver : BinaryDownloader := ⟨"foo", "1.0", some "/usr/bin/foo", none, true, true⟩

/-- Concrete downloader whose two overrides are empty strings. -/
def dEmptyOv : BinaryDownloader := ⟨"foo", "1.0", some "", some "", true, true⟩

/-- Concrete environment used by witnesses: XDG_CACHE_HOME and HOME set. -/
def envFull : Env := ⟨some "/tmp/c", some "/h"⟩

/-- Concrete world with an empty filesystem. -/
def wEmpty : World := ⟨envFull, ⟨[], []⟩, true, true, 0, "out", "err"⟩

/-- Concrete world in which the cache file of dFoo already exists. -/
def wExists : World := ⟨envFull, ⟨["/tmp/c/foo/1.0/foo"], []⟩, true, true, 0, "out", "err"⟩

/-- Concrete world in which the cache file exists and the child exits 1. -/
def wFail : World := ⟨envFull, ⟨["/tmp/c/foo/1.0/foo"], []⟩, true, true, 1, "out", "err"⟩

lemma data_ne_nil_of_ne_empty (s : String) (h : s ≠ "") : s.data ≠ [] := by
  intro hc
  apply h
  cases s
  simp_all

lemma append_ne_empty (a b : String) (hb : b ≠ "") : a ++ b ≠ "" := by
  intro hc
  have hd : (a ++ b).data = [] := by rw [hc]
  rw [String.data_append] at hd
  exact data_ne_nil_of_ne_empty b hb (List.append_eq_nil.mp hd).2

lemma lastIsSlash_append (a b : String) (hb : b ≠ "") :
    lastIsSlash (a ++ b) = lastIsSlash b := by
  unfold lastIsSlash
  rw [String.data_append,
    List.getLast?_append_of_ne_nil a.data (data_ne_nil_of_ne_empty b hb)]

lemma pjoin_plain (a b : String) (hb : headIsSlash b = false)
    (ha1 : a ≠ "") (ha2 : lastIsSlash a = false) :
    pjoin a b = a ++ "/" ++ b := by
  have h1 : (a == "") = false := by simpa using ha1
  simp [pjoin, hb, h1, ha2]

lemma pjoin_chain (cr name ver : String)
    (hcr1 : cr ≠ "") (hcr2 : lastIsSlash cr = false)
    (hn1 : name ≠ "") (hn2 : headIsSlash name = false)
    (hn3 : lastIsSlash name = false)
    (hv1 : ver ≠ "") (hv2 : headIsSlash ver = false)
    (hv3 : lastIsSlash ver = false) :
    pjoin (pjoin (pjoin cr name) ver) name
      = cr ++ "/" ++ name ++ "/" ++ ver ++ "/" ++ name := by
  have e1 : pjoin cr name = cr ++ "/" ++ name := pjoin_plain cr name hn2 hcr1 hcr2
  have ne1 : cr ++ "/" ++ name ≠ "" := append_ne_empty (cr ++ "/") name hn1
  have ls1 : lastIsSlash (cr ++ "/" ++ name) = false := by
    rw [lastIsSlash_append (cr ++ "/") name hn1]
    exact hn3
  have e2 : pjoin (cr ++ "/" ++ name) ver = cr ++ "/" ++ name ++ "/" ++ ver :=
    pjoin_plain (cr ++ "/" ++ name) ver hv2 ne1 ls1
  have ne2 : cr ++ "/" ++ name ++ "/" ++ ver ≠ "" :=
    append_ne_empty (cr ++ "/" ++ name ++ "/") ver hv1
  have ls2 : lastIsSlash (cr ++ "/" ++ name ++ "/" ++ ver) = false := by
    rw [lastIsSlash_append (cr ++ "/" ++ name ++ "/") ver hv1]
    exact hv3
  rw [e1, e2, pjoin_plain (cr ++ "/" ++ name ++ "/" ++ ver) name hn2 ne2 ls2]

lemma fix_file_permissions_files (ok : Bool) (p : String) (fs : FS) :
    (fix_file_permissions ok p fs).fs.files = fs.files := by
  cases ok <;> simp [fix_file_permissions]

lemma runProcess_fetched (w : World) (cmd : List String)
    (co ck k1 k2 : Bool) (fs : FS) (fetched : List String) (warned : Bool) :
    (runProcess w cmd co ck k1 k2 fs fetched warned).fetched = fetched := by
  simp only [runProcess]
  split
  · rfl
  · split
    · rfl
    · rfl

lemma runProcess_cmd (w : World) (cmd : List String)
    (co ck k1 k2 : Bool) (fs : FS) (fetched : List String) (warned : Bool) :
    (runProcess w cmd co ck k1 k2 fs fetched warned).cmd = some cmd := by
  simp only [runProcess]
  split
  · rfl
  · split
    · rfl
    · rfl

lemma runProcess_conflict (w : World) (cmd : List String)
    (co ck k1 k2 : Bool) (fs : FS) (fetched : List String) (warned : Bool)
    (h : (co && (k2 || k1)) = true) :
    runProcess w cmd co ck k1 k2 fs fetched warned
      = ⟨.error (.valueError "Do not specify both capture_output and stdout/stderr"),
         fs, fetched, some cmd, false, warned⟩ := by
  simp [runProcess, h]

lemma runProcess_run (w : World) (cmd : List String)
    (co ck k1 k2 : Bool) (fs : FS) (fetched : List String) (warned : Bool)
    (h : (co && (k2 || k1)) = false) :
    runProcess w cmd co ck k1 k2 fs fetched warned
      = if ck && w.childExit != 0 then
          ⟨.error (.calledProcessError w.childExit
              (if co then some w.childStdout else none)
              (if co then some w.childStderr else none)),
            fs, fetched, some cmd, true, warned⟩
        else
          ⟨.ok ⟨cmd, w.childExit,
              (if co then some w.childStdout else none),
              (if co then some w.childStderr else none)⟩,
            fs, fetched, some cmd, true, warned⟩ := by
  simp [runProcess, h]

lemma run_binary_eq_override (d : BinaryDownloader) (w : World)
    (args : List String) (co ck k1 k2 : Bool) (u : String)
    (hu : d.override_path = some u) (hne : u ≠ "") :
    run_binary d w args co ck k1 k2
      = runProcess w (u :: args) co ck k1 k2 w.fs []
          (!(d.handle_arguments_called && d.add_arguments_called)) := by
  have hb : (u != "") = true := by simpa using hne
  simp [run_binary, truthy, hu, hb]

lemma run_binary_eq_download (d : BinaryDownloader) (w : World)
    (args : List String) (co ck k1 k2 : Bool) (p : String)
    (hto : truthy d.override_path = false)
    (hp : (download_binary d w).ret = .ok p) :
    run_binary d w args co ck k1 k2
      = runProcess w (p :: args) co ck k1 k2
          (download_binary d w).fs (download_binary d w).fetched
          (!(d.handle_arguments_called && d.add_arguments_called)) := by
  simp [run_binary, hto, hp]

lemma run_binary_eq_runProcess (d : BinaryDownloader) (w : World)
    (args : List String) (co ck k1 k2 : Bool) (bp : String)
    (hbp : binary_path_resolution d w = .ok bp) :
    ∃ fs fetched, run_binary d w args co ck k1 k2
      = runProcess w (bp :: args) co ck k1 k2 fs fetched
          (!(d.handle_arguments_called && d.add_arguments_called)) := by
  unfold binary_path_resolution at hbp
  by_cases hto : truthy d.override_path
  · rw [if_pos hto] at hbp
    cases hu : d.override_path with
    | none => rw [hu] at hto; simp [truthy] at hto
    | some u =>
      have hne : u ≠ "" := by rw [hu] at hto; simpa [truthy] using hto
      have hub : u = bp := by rw [hu] at hbp; simpa using hbp
      refine ⟨w.fs, [], ?_⟩
      rw [← hub]
      exact run_binary_eq_override d w args co ck k1 k2 u hu hne
  · have hto' : truthy d.override_path = false := by simpa using hto
    rw [if_neg hto] at hbp
    exact ⟨(download_binary d w).fs, (download_binary d w).fetched,
      run_binary_eq_download d w args co ck k1 k2 bp hto' hbp⟩

lemma download_binary_congr (d1 d2 : BinaryDownloader) (w : World)
    (hn : d1.binary_name = d2.binary_name) (hv : d1.version = d2.version)
    (hu : d1.override_url = d2.override_url) :
    download_binary d1 w = download_binary d2 w := by
  simp [download_binary, cached_binary_path, cached_binary_root,
    remote_binary_url, truthy, REMOTE_URL, hn, hv, hu]

/-- Claim C1: the claim states that cached_binary_root (and hence
cached_binary_path) fails exactly when XDG_CACHE_HOME and HOME are both
absent, so that it succeeds whenever XDG_CACHE_HOME is set. The code
disagrees: the fallback expression `os.environ["HOME"]` is the default
argument of `.get` and Python evaluates it eagerly, so HOME is looked up
and KeyError raised even when XDG_CACHE_HOME is set. This theorem
evaluates the embedding at the failing input (XDG_CACHE_HOME set to
/tmp/c, HOME absent): the call errors instead of succeeding, and
cached_binary_path errors with it, while with HOME also set the same
call succeeds. -/
theorem cached_binary_root_home_always_required :
    cached_binary_root ⟨"foo", "1.0", none, none, true, true⟩
      ⟨some "/tmp/c", none⟩ = .error (.keyError "HOME") ∧
    cached_binary_path ⟨"foo", "1.0", none, none, true, true⟩
      ⟨some "/tmp/c", none⟩ = .error (.keyError "HOME") ∧
    cached_binary_root ⟨"foo", "1.0", none, none, true, true⟩
      ⟨some "/tmp/c", some "/h"⟩ = .ok "/tmp/c/foo" := by
  refine ⟨rfl, rfl, rfl⟩

/-- Claim C2 (amended): when the cache root resolves (HOME is set, which
the code always requires), the resolved cache root is XDG_CACHE_HOME if
set and HOME/.cache otherwise, and provided the cache root, binary_name
and version are nonempty and free of leading and trailing slashes (the
claim is false for absolute or slash-decorated components, since
os.path.join then drops or merges segments), cached_binary_path returns
cache_root/binary_name/version/binary_name. -/
theorem cached_binary_path_formula (d : BinaryDownloader) (env : Env)
    (h cr : String)
    (hh : env.home = some h)
    (hcr : cr = match env.xdg_cache_home with
      | some c => c
      | none => h ++ "/.cache")
    (hhome : env.xdg_cache_home = none → h ≠ "" ∧ lastIsSlash h = false)
    (hcr1 : cr ≠ "") (hcr2 : lastIsSlash cr = false)
    (hn1 : d.binary_name ≠ "") (hn2 : headIsSlash d.binary_name = false)
    (hn3 : lastIsSlash d.binary_name = false)
    (hv1 : d.version ≠ "") (hv2 : headIsSlash d.version = false)
    (hv3 : lastIsSlash d.version = false) :
    cached_binary_path d env
      = .ok (cr ++ "/" ++ d.binary_name ++ "/" ++ d.version
          ++ "/" ++ d.binary_name) := by
  cases hx : env.xdg_cache_home with
  | none =>
    rw [hx] at hcr
    simp only at hcr
    obtain ⟨hne, hls⟩ := hhome hx
    have hc : pjoin h ".cache" = cr := by
      rw [hcr, pjoin_plain h ".cache" (by decide) hne hls,
        String.append_assoc]
      rfl
    simp only [cached_binary_path, cached_binary_root, hh, hx,
      Option.getD_none, Except.map, hc]
    rw [pjoin_chain cr d.binary_name d.version hcr1 hcr2 hn1 hn2 hn3 hv1 hv2 hv3]
  | some c =>
    rw [hx] at hcr
    simp only at hcr
    subst hcr
    simp only [cached_binary_path, cached_binary_root, hh, hx,
      Option.getD_some, Except.map]
    rw [pjoin_chain cr d.binary_name d.version hcr1 hcr2 hn1 hn2 hn3 hv1 hv2 hv3]

/-- Claim C2 counterexample: with binary_name foo, version /v,
XDG_CACHE_HOME /tmp/c and HOME /h, the code returns the string /v/foo
(os.path.join restarts at an absolute component), not the literal
concatenation cache_root/binary_name/version/binary_name announced by
the claim for every binary_name and version. -/
theorem cached_binary_path_formula_cex :
    cached_binary_path ⟨"foo", "/v", none, none, true, true⟩
      ⟨some "/tmp/c", some "/h"⟩ = .ok "/v/foo" ∧
    ("/v/foo" : String)
      ≠ "/tmp/c" ++ "/" ++ "foo" ++ "/" ++ "/v" ++ "/" ++ "foo" := by
  refine ⟨rfl, by decide⟩

/-- Witness for C2 at the end-to-end scenario of the spec: binary_name
foo, version 1.0, XDG_CACHE_HOME /tmp/c, HOME /h. -/
theorem cached_binary_path_formula_witness :
    cached_binary_path ⟨"foo", "1.0", none, none, true, true⟩
      ⟨some "/tmp/c", some "/h"⟩ = .ok "/tmp/c/foo/1.0/foo" := by
  have hres := cached_binary_path_formula
    ⟨"foo", "1.0", none, none, true, true⟩ ⟨some "/tmp/c", some "/h"⟩
    "/h" "/tmp/c" rfl rfl
    (fun hx => absurd hx (by decide))
    (by decide) (by decide) (by decide) (by decide) (by decide)
    (by decide) (by decide) (by decide)
  simpa using hres

/-- Claim C3: download_binary is idempotent and checks existence before
resolving any URL. First part: whenever a file already exists at the
cache path, the call returns that path with the filesystem untouched, an
empty fetch list and urlResolved false, for every downloader state, so
in particular whatever override_url holds. Second part: when a first
call returns a path, a second call on the resulting world returns the
same path and fetches nothing, and the first call fetched at most once. -/
theorem download_binary_idempotent (d : BinaryDownloader) (w : World) :
    (∀ target, cached_binary_path d w.env = .ok target →
       osPathExists w.fs target = true →
       download_binary d w = ⟨.ok target, w.fs, [], false, false⟩) ∧
    (∀ p, (download_binary d w).ret = .ok p →
       (download_binary d {w with fs := (download_binary d w).fs}).ret
           = .ok p ∧
       (download_binary d {w with fs := (download_binary d w).fs}).fetched
           = [] ∧
       (download_binary d w).fetched.length ≤ 1) := by
  constructor
  · intro target hcp hex
    simp [download_binary, hcp, hex]
  · intro p hret
    cases hcp : cached_binary_path d w.env with
    | error e => simp [download_binary, hcp] at hret
    | ok t =>
      cases hex : osPathExists w.fs t with
      | true =>
        have hd : download_binary d w = ⟨.ok t, w.fs, [], false, false⟩ := by
          simp [download_binary, hcp, hex]
        rw [hd] at hret
        simp only [Except.ok.injEq] at hret
        subst hret
        rw [hd]
        refine ⟨?_, ?_, by simp⟩
        · have : download_binary d {w with fs := w.fs} = ⟨.ok t, w.fs, [], false, false⟩ := by
            simp [download_binary, hcp, hex]
          rw [this]
        · have : download_binary d {w with fs := w.fs} = ⟨.ok t, w.fs, [], false, false⟩ := by
            simp [download_binary, hcp, hex]
          rw [this]
      | false =>
        cases hf : w.fetchOk with
        | false => simp [download_binary, hcp, hex, hf] at hret
        | true =>
          have hd : download_binary d w =
              ⟨.ok t,
               (fix_file_permissions w.chmodOk t ⟨t :: w.fs.files, w.fs.perms⟩).fs,
               [remote_binary_url d], true,
               (fix_file_permissions w.chmodOk t ⟨t :: w.fs.files, w.fs.perms⟩).warned⟩ := by
            simp [download_binary, hcp, hex, hf]
          rw [hd] at hret
          simp only [Except.ok.injEq] at hret
          subst hret
          rw [hd]
          have hex2 : osPathExists
              (fix_file_permissions w.chmodOk t ⟨t :: w.fs.files, w.fs.perms⟩).fs t = true := by
            simp [osPathExists, fix_file_permissions_files]
          refine ⟨?_, ?_, ?_⟩
          · simp [hd, download_binary, hcp, hex2]
          · simp [hd, download_binary, hcp, hex2]
          · simp [hd]

/-- Witness for C3: with the cache file already present, download_binary
returns it with no fetch and no URL resolution. -/
theorem download_binary_idempotent_witness :
    download_binary dFoo wExists
      = ⟨.ok "/tmp/c/foo/1.0/foo", wExists.fs, [], false, false⟩ :=
  (download_binary_idempotent dFoo wExists).1 "/tmp/c/foo/1.0/foo" rfl rfl

/-- Claim C4: with a truthy override_path the child command starts with
the override and no fetch happens, whatever the filesystem holds; with
override_path falsy the binary path comes out of the download_binary
flow and the fetches are exactly those of download_binary. -/
theorem run_binary_override_path (d : BinaryDownloader) (w : World)
    (args : List String) (co ck k1 k2 : Bool) :
    (∀ u, d.override_path = some u → u ≠ "" →
       (run_binary d w args co ck k1 k2).fetched = [] ∧
       (run_binary d w args co ck k1 k2).cmd = some (u :: args)) ∧
    (truthy d.override_path = false →
       ∀ p, (download_binary d w).ret = .ok p →
         (run_binary d w args co ck k1 k2).cmd = some (p :: args) ∧
         (run_binary d w args co ck k1 k2).fetched
           = (download_binary d w).fetched) := by
  constructor
  · intro u hu hne
    rw [run_binary_eq_override d w args co ck k1 k2 u hu hne]
    exact ⟨runProcess_fetched _ _ _ _ _ _ _ _ _, runProcess_cmd _ _ _ _ _ _ _ _ _⟩
  · intro hto p hp
    rw [run_binary_eq_download d w args co ck k1 k2 p hto hp]
    exact ⟨runProcess_cmd _ _ _ _ _ _ _ _ _, runProcess_fetched _ _ _ _ _ _ _ _ _⟩

/-- Witness for C4: with override_path /usr/bin/foo and an empty
filesystem, run_binary fetches nothing and runs /usr/bin/foo. -/
theorem run_binary_override_path_witness :
    (run_binary dOver wEmpty [] true true false false).fetched = [] ∧
    (run_binary dOver wEmpty [] true true false false).cmd
      = some ["/usr/bin/foo"] :=
  (run_binary_override_path dOver wEmpty [] true true false false).1
    "/usr/bin/foo" rfl (by decide)

/-- Claim C5 (amended): when run_binary is invoked with capture_output
and a stdout or stderr kwarg, and binary path resolution reaches the
conflict test (override_path truthy or download_binary succeeding), the
call raises the ValueError before any child process is launched. The
original claim also promised that no download is triggered on this
path; that part is false, because the code resolves the binary path,
downloading if needed, before it tests the kwargs conflict. -/
theorem run_binary_capture_conflict (d : BinaryDownloader) (w : World)
    (args : List String) (ck k1 k2 : Bool)
    (hk : (k1 || k2) = true)
    (hres : truthy d.override_path = true ∨
      ∃ p, (download_binary d w).ret = .ok p) :
    (run_binary d w args true ck k1 k2).ret
      = .error (.valueError "Do not specify both capture_output and stdout/stderr") ∧
    (run_binary d w args true ck k1 k2).processLaunched = false := by
  have hk2 : (true && (k2 || k1)) = true := by
    cases k1 <;> cases k2 <;> simp_all
  by_cases hto : truthy d.override_path
  · cases hu : d.override_path with
    | none => rw [hu] at hto; simp [truthy] at hto
    | some u =>
      have hne : u ≠ "" := by rw [hu] at hto; simpa [truthy] using hto
      rw [run_binary_eq_override d w args true ck k1 k2 u hu hne,
        runProcess_conflict _ _ _ _ _ _ _ _ _ hk2]
      exact ⟨rfl, rfl⟩
  · have hto' : truthy d.override_path = false := by simpa using hto
    rcases hres with ht | ⟨p, hp⟩
    · exact absurd ht hto
    · rw [run_binary_eq_download d w args true ck k1 k2 p hto' hp,
        runProcess_conflict _ _ _ _ _ _ _ _ _ hk2]
      exact ⟨rfl, rfl⟩

/-- Claim C5 counterexample: with no override, an absent cache file and
capture_output plus a stdout kwarg, the call does end in the ValueError,
but the network fetch has already happened: the claim that the failure
comes before any download is false on the code, which resolves the
binary path first. -/
theorem run_binary_capture_conflict_cex :
    (run_binary dFoo wEmpty [] true true true false).ret
      = .error (.valueError "Do not specify both capture_output and stdout/stderr") ∧
    (run_binary dFoo wEmpty [] true true true false).fetched
      = ["https://storage.googleapis.com/pre-commit-assets/foo/1.0/bin/foo"] := by
  exact ⟨rfl, rfl⟩

/-- Witness for C5: cache file present, capture_output with a stdout
kwarg: ValueError and no child process. -/
theorem run_binary_capture_conflict_witness :
    (run_binary dFoo wExists [] true true true false).ret
      = .error (.valueError "Do not specify both capture_output and stdout/stderr") ∧
    (run_binary dFoo wExists [] true true true false).processLaunched = false :=
  run_binary_capture_conflict dFoo wExists [] true true false rfl
    (Or.inr ⟨"/tmp/c/foo/1.0/foo", rfl⟩)

/-- Claim C6: once the binary path is resolved and the capture options
do not conflict, check true and a non-zero exit yield the
CalledProcessError carrying the exit code and the captured stderr, and
check false returns the CompletedProcess whatever the exit code. -/
theorem run_binary_check_behaviour (d : BinaryDownloader) (w : World)
    (args : List String) (co k1 k2 : Bool) (bp : String)
    (hco : (co && (k2 || k1)) = false)
    (hbp : binary_path_resolution d w = .ok bp) :
    (w.childExit ≠ 0 →
       (run_binary d w args co true k1 k2).ret
         = .error (.calledProcessError w.childExit
             (if co then some w.childStdout else none)
             (if co then some w.childStderr else none))) ∧
    (run_binary d w args co false k1 k2).ret
      = .ok ⟨bp :: args, w.childExit,
          (if co then some w.childStdout else none),
          (if co then some w.childStderr else none)⟩ := by
  constructor
  · intro hexit
    obtain ⟨fs, fetched, heq⟩ :=
      run_binary_eq_runProcess d w args co true k1 k2 bp hbp
    have hb : (true && (w.childExit != 0)) = true := by simp [hexit]
    rw [heq, runProcess_run _ _ _ _ _ _ _ _ _ hco, if_pos (by simp [hb])]
  · obtain ⟨fs, fetched, heq⟩ :=
      run_binary_eq_runProcess d w args co false k1 k2 bp hbp
    rw [heq, runProcess_run _ _ _ _ _ _ _ _ _ hco, if_neg (by simp)]

/-- Witness for C6: the cached binary exits 1: with check the call ends
in CalledProcessError 1 with the captured stderr, without check it
returns the CompletedProcess with returncode 1. -/
theorem run_binary_check_behaviour_witness :
    (run_binary dFoo wFail [] true true false false).ret
      = .error (.calledProcessError 1 (some "out") (some "err")) ∧
    (run_binary dFoo wFail [] true false false false).ret
      = .ok ⟨["/tmp/c/foo/1.0/foo"], 1, some "out", some "err"⟩ := by
  have h := run_binary_check_behaviour dFoo wFail [] true false false
    "/tmp/c/foo/1.0/foo" rfl rfl
  exact ⟨h.1 (by decide), h.2⟩

/-- Claim C7: after a download that actually fetched (cache file absent,
network up), the returned path is the cache path; when chmod succeeds
the file carries exactly the or of the seven stat bits, which is 493,
that is octal 755; when chmod fails the call still returns the path and
only the warning fires. -/
theorem download_binary_sets_permissions (d : BinaryDownloader) (w : World)
    (target : String)
    (hcp : cached_binary_path d w.env = .ok target)
    (habs : osPathExists w.fs target = false)
    (hf : w.fetchOk = true) :
    (download_binary d w).ret = .ok target ∧
    permBits = 0o755 ∧
    (w.chmodOk = true →
       FS.perm (download_binary d w).fs target = some permBits) ∧
    (w.chmodOk = false →
       (download_binary d w).ret = .ok target ∧
       (download_binary d w).chmodWarned = true) := by
  have hd : download_binary d w =
      ⟨.ok target,
       (fix_file_permissions w.chmodOk target ⟨target :: w.fs.files, w.fs.perms⟩).fs,
       [remote_binary_url d], true,
       (fix_file_permissions w.chmodOk target ⟨target :: w.fs.files, w.fs.perms⟩).warned⟩ := by
    simp [download_binary, hcp, habs, hf]
  refine ⟨by rw [hd], by decide, ?_, ?_⟩
  · intro hc
    rw [hd]
    simp [fix_file_permissions, hc, FS.perm]
  · intro hc
    rw [hd]
    simp [fix_file_permissions, hc]

/-- Witness for C7: downloading foo into the empty world records
permission bits 493 on the cache file. -/
theorem download_binary_sets_permissions_witness :
    (download_binary dFoo wEmpty).ret = .ok "/tmp/c/foo/1.0/foo" ∧
    FS.perm (download_binary dFoo wEmpty).fs "/tmp/c/foo/1.0/foo"
      = some permBits := by
  have h := download_binary_sets_permissions dFoo wEmpty
    "/tmp/c/foo/1.0/foo" rfl rfl rfl
  exact ⟨h.1, h.2.2.1 rfl⟩

/-- Claim C8: remote_binary_url returns a truthy override_url as is, and
with override_url falsy it returns the default template with
binary_name and version substituted. -/
theorem remote_binary_url_spec (d : BinaryDownloader) :
    (∀ u, d.override_url = some u → u ≠ "" → remote_binary_url d = u) ∧
    (truthy d.override_url = false →
       remote_binary_url d
         = "https://storage.googleapis.com/pre-commit-assets/"
             ++ d.binary_name ++ "/" ++ d.version ++ "/bin/" ++ d.binary_name) := by
  constructor
  · intro u hu hne
    have hb : (u != "") = true := by simpa using hne
    simp [remote_binary_url, truthy, hu, hb]
  · intro hto
    simp [remote_binary_url, hto, REMOTE_URL]

/-- Witness for C8: an override URL wins, and without one the template
for foo 1.0 comes out. -/
theorem remote_binary_url_spec_witness :
    remote_binary_url ⟨"foo", "1.0", none, some "https://example.com/foo", true, true⟩
      = "https://example.com/foo" ∧
    remote_binary_url dFoo
      = "https://storage.googleapis.com/pre-commit-assets/foo/1.0/bin/foo" := by
  have h1 := (remote_binary_url_spec
    ⟨"foo", "1.0", none, some "https://example.com/foo", true, true⟩).1
    "https://example.com/foo" rfl (by decide)
  have h2 := (remote_binary_url_spec dFoo).2 rfl
  exact ⟨h1, h2⟩

/-- Claim C9: cached_binary_path is a function of binary_name, version
and the environment only: two downloader states agreeing on those two
fields give the same result in the same environment, and in particular
repeating the call with nothing changed repeats the result. -/
theorem cached_binary_path_deterministic (d1 d2 : BinaryDownloader)
    (env : Env)
    (h1 : d1.binary_name = d2.binary_name) (h2 : d1.version = d2.version) :
    cached_binary_path d1 env = cached_binary_path d2 env := by
  simp [cached_binary_path, cached_binary_root, h1, h2]

/-- Witness for C9: dFoo and a differently configured downloader with
the same name and version resolve the same path. -/
theorem cached_binary_path_deterministic_witness :
    cached_binary_path dFoo envFull
      = cached_binary_path ⟨"foo", "1.0", some "/x", some "/y", false, false⟩ envFull :=
  cached_binary_path_deterministic dFoo
    ⟨"foo", "1.0", some "/x", some "/y", false, false⟩ envFull rfl rfl

/-- Claim C10: the overrides are tested by Python truthiness: an
empty-string override_path leaves run_binary exactly as if the override
were None, an empty-string override_url leaves remote_binary_url on the
default template, and only non-empty overrides take precedence. -/
theorem overrides_truthiness (d : BinaryDownloader) (w : World)
    (args : List String) (co ck k1 k2 : Bool) :
    (d.override_path = some "" →
       run_binary d w args co ck k1 k2
         = run_binary {d with override_path := none} w args co ck k1 k2) ∧
    (d.override_url = some "" →
       remote_binary_url d = remote_binary_url {d with override_url := none}) ∧
    (∀ u, u ≠ "" → d.override_path = some u →
       (run_binary d w args co ck k1 k2).fetched = [] ∧
       (run_binary d w args co ck k1 k2).cmd = some (u :: args)) ∧
    (∀ u, u ≠ "" → d.override_url = some u → remote_binary_url d = u) := by
  refine ⟨?_, ?_, ?_, ?_⟩
  · intro hu
    have hdl : download_binary {d with override_path := none} w
        = download_binary d w :=
      download_binary_congr _ _ w rfl rfl rfl
    have h1 : truthy d.override_path = false := by rw [hu]; rfl
    have h2 : truthy ({d with override_path := none}).override_path = false := rfl
    simp [run_binary, h1, h2, hdl]
  · intro hu
    have h1 : truthy d.override_url = false := by rw [hu]; rfl
    have h2 : truthy (none : Option String) = false := rfl
    simp [remote_binary_url, h1, h2]
  · intro u hne hu
    rw [run_binary_eq_override d w args co ck k1 k2 u hu hne]
    exact ⟨runProcess_fetched _ _ _ _ _ _ _ _ _, runProcess_cmd _ _ _ _ _ _ _ _ _⟩
  · intro u hne hu
    have hb : (u != "") = true := by simpa using hne
    simp [remote_binary_url, truthy, hu, hb]

/-- Witness for C10: with both overrides set to the empty string the
behaviour is the None behaviour. -/
theorem overrides_truthiness_witness :
    run_binary dEmptyOv wExists [] true true false false
      = run_binary {dEmptyOv with override_path := none} wExists [] true true false false ∧
    remote_binary_url dEmptyOv
      = remote_binary_url {dEmptyOv with override_url := none} := by
  have h := overrides_truthiness dEmptyOv wExists [] true true false false
  exact ⟨h.1 rfl, h.2.1 rfl⟩
